import Mathlib

/-!
Verification of the telnet session engine (lib/telnet.js).

The definitions below are a shallow embedding of the inbound parser
(Client.prototype.parse), the per-option decoder methods (echo, status,
linemode, transmit_binary, authentication, terminal_speed,
remote_flow_control, x_display_location, suppress_go_ahead, naws,
new_environ, terminal_type), and the raw-mode toggle (_setRawMode).
Bytes are modelled as natural numbers, buffers as lists of bytes, and the
event-emitter surface as an explicit trace of emitted events.  Out-of-range
buffer indexing (undefined in the source language, which is falsy and never
equal to a byte) is modelled by a default of 0 where only truthiness or
disequality with a nonzero byte matters, and by explicit length guards where
the source would raise a RangeError.
-/

namespace Telnet

abbrev Bytes := List Nat

/-- data[i] indexing: out of range gives the falsy default 0. -/
def byteAt : Bytes → Nat → Nat
  | [], _ => 0
  | b :: _, 0 => b
  | _ :: rest, n + 1 => byteAt rest n

/-- Buffer.prototype.slice(a, b). -/
def slice (d : Bytes) (a b : Nat) : Bytes := (d.drop a).take (b - a)

/-- Buffer.prototype.readUInt16BE. -/
def readU16BE (d : Bytes) (i : Nat) : Nat := 256 * byteAt d i + byteAt d (i + 1)

/-- Buffer.prototype.toString with encoding ascii masks each byte to 7 bits. -/
def toAscii (d : Bytes) (a b : Nat) : Bytes := (slice d a b).map (fun x => x % 128)

/-- String.prototype.toLowerCase on one ascii code point. -/
def lowerByte (b : Nat) : Nat := if 65 ≤ b ∧ b ≤ 90 then b + 32 else b

/-- String.prototype.toLowerCase on an ascii string. -/
def lowerBytes (bs : Bytes) : Bytes := bs.map lowerByte

/-- COMMAND_NAMES has an entry (is truthy) exactly for codes 240..255. -/
def isCommandCode (b : Nat) : Prop := 240 ≤ b ∧ b ≤ 255

instance (b : Nat) : Decidable (isCommandCode b) := by
  unfold isCommandCode; infer_instance

/-- OPTION_NAMES has an entry exactly for codes 0..49, 138, 139, 140, 255. -/
def isOptionCode (b : Nat) : Prop :=
  b ≤ 49 ∨ b = 138 ∨ b = 139 ∨ b = 140 ∨ b = 255

instance (b : Nat) : Decidable (isOptionCode b) := by
  unfold isOptionCode; infer_instance

/-- Option codes whose lowercase option name is a method of Client.prototype,
so that parse dispatches this[cmd.optionName].  Note that option 33 is named
toggle_flow_control, which is not a method (remote_flow_control is, but no
option carries that name), and options 2, 4, 6, 7..23, 25..30, 33, 36, 38,
40..49, 138..140, 255 have no handler. -/
def isHandledOption (b : Nat) : Prop :=
  b = 0 ∨ b = 1 ∨ b = 3 ∨ b = 5 ∨ b = 24 ∨ b = 31 ∨ b = 32 ∨ b = 34 ∨
  b = 35 ∨ b = 37 ∨ b = 39

instance (b : Nat) : Decidable (isHandledOption b) := by
  unfold isHandledOption; infer_instance

/-- The cmd object built by parse and enriched by the decoders. -/
structure Cmd where
  commandCode : Nat
  optionCode : Nat
  dataLen : Nat
  width : Option Nat := none
  height : Option Nat := none
  name : Option Bytes := none
  value : Option Bytes := none
  envtype : Option Nat := none
  deriving Repr, DecidableEq

/-- One emitted event.  data is the user-data event; command the generic
frame event; named an option-specific event such as echo or naws; the rest
are the payload-carrying auxiliary events resize, size, term and env, and
the error event. -/
inductive Ev where
  | data (bs : Bytes)
  | command (c : Cmd)
  | named (s : String) (c : Cmd)
  | resize
  | size (w h : Nat)
  | term (n : Bytes)
  | env (n v : Bytes) (t : Nat)
  | error
  deriving Repr, DecidableEq

/-- Session state of one Client: the tty option flag, the transport
writability, the environment map, the terminal name, the window size
(present only for tty sessions), the raw-mode flag and the saved
_last = (data, i, l) resume state. -/
structure Session where
  tty : Bool
  writable : Bool
  env : List (Bytes × Bytes)
  terminal : Bytes
  columns : Option Nat
  rows : Option Nat
  isRaw : Bool
  last : Option (Bytes × Nat × Nat)
  deriving Repr, DecidableEq

/-- A fresh Client: env = {}, terminal ansi, columns/rows 80x24 only when
the tty option is set. -/
def mkSession (tty writable : Bool) : Session :=
  { tty := tty
    writable := writable
    env := []
    terminal := [97, 110, 115, 105]
    columns := if tty then some 80 else none
    rows := if tty then some 24 else none
    isRaw := false
    last := none }

/-- this.env[name] = value on a map modelled as an association list. -/
def envSet (e : List (Bytes × Bytes)) (n v : Bytes) : List (Bytes × Bytes) :=
  (n, v) :: e.filter (fun p => p.1 != n)

/-- Result of one decoder call: ok (consumed length, emitted events, new
session state, transport writes, updated cmd), needMore for a returned -1 or
a RangeError from an out-of-range read, failed for a thrown assertion. -/
inductive HRes where
  | ok (len : Nat) (tr : List Ev) (s : Session) (ws : List Bytes) (c : Cmd)
  | needMore
  | failed
  deriving Repr, DecidableEq

def HRes.len? : HRes → Option Nat
  | .ok len _ _ _ _ => some len
  | .needMore => none
  | .failed => none

/-- The nine fixed 3-byte decoders share this shape: length guard, slice the
cmd data to 3 bytes, emit one named event, consume 3 bytes. -/
def fixed3 (ev : String) (s : Session) (cdata : Bytes) (c : Cmd) : HRes :=
  if cdata.length < 3 then .needMore
  else
    let c2 : Cmd := { c with dataLen := 3 }
    .ok 3 [.named ev c2] s [] c2

def echo : Session → Bytes → Cmd → HRes := fixed3 "echo"

def status : Session → Bytes → Cmd → HRes := fixed3 "status"

def linemode : Session → Bytes → Cmd → HRes := fixed3 "linemode"

def transmit_binary : Session → Bytes → Cmd → HRes := fixed3 "transmit binary"

def authentication : Session → Bytes → Cmd → HRes := fixed3 "authentication"

def terminal_speed : Session → Bytes → Cmd → HRes := fixed3 "terminal speed"

def remote_flow_control : Session → Bytes → Cmd → HRes := fixed3 "remote flow control"

def x_display_location : Session → Bytes → Cmd → HRes := fixed3 "x display location"

def suppress_go_ahead : Session → Bytes → Cmd → HRes := fixed3 "suppress go ahead"

/-- First index j with start ≤ j < d.length and d[j] = t, as in the
for-loops the SB decoders use to locate a separator byte. -/
def findFrom (d : Bytes) (start t : Nat) : Option Nat :=
  (List.range' start (d.length - start)).find? (fun j => byteAt d j == t)

/-- Client.prototype.naws. -/
def naws (s : Session) (cdata : Bytes) (c : Cmd) : HRes :=
  if c.commandCode = 250 then
    if cdata.length < 9 then .needMore
    else
      let width := readU16BE cdata 3
      let height := readU16BE cdata 5
      if byteAt cdata 0 = 255 ∧ byteAt cdata 1 = 250 ∧ byteAt cdata 2 = 31 ∧
         byteAt cdata 7 = 255 ∧ byteAt cdata 8 = 240 then
        let c2 : Cmd := { c with width := some width, height := some height, dataLen := 9 }
        let s2 : Session :=
          if s.tty then { s with columns := some width, rows := some height } else s
        let pre : List Ev := if s.tty then [.resize] else []
        .ok 9 (pre ++ [.named "window size" c2, .named "naws" c2, .size width height]) s2 [] c2
      else .failed
  else
    if cdata.length < 3 then .needMore
    else
      let c2 : Cmd := { c with dataLen := 3 }
      .ok 3 [.named "window size" c2, .named "naws" c2] s [] c2

/-- Client.prototype.new_environ.  The name is scanned up to the VALUE (1)
separator and the value up to the next IAC; a missing separator leaves the
cursor at the buffer end, whose readUInt8 raises a RangeError (needMore). -/
def new_environ (s : Session) (cdata : Bytes) (c : Cmd) : HRes :=
  if c.commandCode = 250 then
    if cdata.length < 10 then .needMore
    else
      match findFrom cdata 5 1 with
      | none => .needMore
      | some j1 =>
        match findFrom cdata (j1 + 1) 255 with
        | none => .needMore
        | some j2 =>
          if cdata.length ≤ j2 + 1 then .needMore
          else
            let name := toAscii cdata 5 j1
            let value := toAscii cdata (j1 + 1) j2
            let vb := byteAt cdata 4
            if byteAt cdata 0 = 255 ∧ byteAt cdata 1 = 250 ∧ byteAt cdata 2 = 39 ∧
               byteAt cdata 3 = 2 ∧ (vb = 0 ∨ vb = 3) ∧
               name ≠ [] ∧ value ≠ [] ∧
               byteAt cdata j2 = 255 ∧ byteAt cdata (j2 + 1) = 240 then
              let isTermVar := name = [84, 69, 82, 77]
              let value2 := if isTermVar then lowerBytes value else value
              let s2 := if isTermVar then { s with terminal := lowerBytes value } else s
              let termEvs : List Ev := if isTermVar then [.term (lowerBytes value)] else []
              let c2 : Cmd :=
                { c with
                  name := some name
                  value := some value2
                  envtype := some vb
                  dataLen := j2 + 2 }
              let s3 := { s2 with env := envSet s.env name value2 }
              .ok (j2 + 2)
                (termEvs ++
                  [.named "environment variables" c2, .named "new environ" c2,
                   .env name value2 vb])
                s3 [] c2
            else .failed
  else
    if cdata.length < 3 then .needMore
    else
      let c2 : Cmd := { c with dataLen := 3 }
      .ok 3 [.named "environment variables" c2, .named "new environ" c2] s [] c2

/-- Client.prototype.terminal_type.  On a WILL frame the core also writes
IAC SB TERMINAL-TYPE SEND IAC SE to solicit the terminal name. -/
def terminal_type (s : Session) (cdata : Bytes) (c : Cmd) : HRes :=
  if c.commandCode = 250 then
    if cdata.length < 7 then .needMore
    else
      match findFrom cdata 4 255 with
      | none => .needMore
      | some j =>
        if cdata.length ≤ j + 1 then .needMore
        else
          let name := toAscii cdata 4 j
          if byteAt cdata 0 = 255 ∧ byteAt cdata 1 = 250 ∧ byteAt cdata 2 = 24 ∧
             byteAt cdata 3 = 0 ∧ name ≠ [] ∧
             byteAt cdata j = 255 ∧ byteAt cdata (j + 1) = 240 then
            let nm := lowerBytes name
            let c2 : Cmd := { c with name := some nm, dataLen := j + 2 }
            .ok (j + 2) [.named "terminal type" c2, .term nm] { s with terminal := nm } [] c2
          else .failed
  else
    if cdata.length < 3 then .needMore
    else
      let c2 : Cmd := { c with dataLen := 3 }
      .ok 3 [.named "terminal type" c2] s
        (if c.commandCode = 251 then [[255, 250, 24, 1, 255, 240]] else []) c2

/-- Dispatch this[cmd.optionName] for the handled options. -/
def runHandler (s : Session) (opt : Nat) (cdata : Bytes) (c : Cmd) : HRes :=
  if opt = 0 then transmit_binary s cdata c
  else if opt = 1 then echo s cdata c
  else if opt = 3 then suppress_go_ahead s cdata c
  else if opt = 5 then status s cdata c
  else if opt = 24 then terminal_type s cdata c
  else if opt = 31 then naws s cdata c
  else if opt = 32 then terminal_speed s cdata c
  else if opt = 34 then linemode s cdata c
  else if opt = 35 then x_display_location s cdata c
  else if opt = 37 then authentication s cdata c
  else if opt = 39 then new_environ s cdata c
  else .failed

/-- The while loop of the unknown-option SB branch: walk until a falsy byte
(zero or end of buffer, giving length 3) or an SE byte (giving the position
after it). -/
def seScan : Bytes → Option Nat
  | [] => none
  | b :: rest =>
    if b = 0 then none
    else if b = 240 then some 1
    else (seScan rest).map (· + 1)

def unknownSbLen (cdata : Bytes) : Nat := (seScan cdata).getD 3

/-- The frame-head recognition rule of parse at cursor i: at least three
bytes available, an IAC, a known command code and a known option code. -/
def frameHead (data : Bytes) (i : Nat) : Prop :=
  i + 3 ≤ data.length ∧ byteAt data i = 255 ∧
  isCommandCode (byteAt data (i + 1)) ∧ isOptionCode (byteAt data (i + 2))

instance (data : Bytes) (i : Nat) : Decidable (frameHead data i) := by
  unfold frameHead; infer_instance

/-- Result of one parse call: the trace of emitted events, the final session
state and the buffers written to the transport. -/
structure PRes where
  tr : List Ev
  sess : Session
  ws : List Bytes
  deriving Repr, DecidableEq

/-- The scan loop of Client.prototype.parse, one fuel per iteration.  The
arguments after the fuel are the loop variables i, l, bufs, needsPush and
the session, plus the accumulated trace and writes. -/
def parseLoop (data : Bytes) : Nat → Nat → Nat → List Bytes → Bool → Session →
    List Ev → List Bytes → PRes
  | 0, _, _, bufs, _, s, tr, ws =>
    ⟨tr ++ (if bufs.isEmpty then [] else [.data bufs.flatten]), s, ws⟩
  | fuel + 1, i, l, bufs, needsPush, s, tr, ws =>
    if i < data.length then
      if frameHead data i then
        let cdata := data.drop i
        let c : Cmd := { commandCode := byteAt data (i + 1),
                         optionCode := byteAt data (i + 2),
                         dataLen := cdata.length }
        if isHandledOption c.optionCode then
          match runHandler s c.optionCode cdata c with
          | .ok len htr s2 hws c2 =>
            parseLoop data fuel (i + len) (i + len) bufs true s2
              (tr ++ htr ++ [.command c2]) (ws ++ hws)
          | .needMore => ⟨tr, { s with last := some (data, i, l) }, ws⟩
          | .failed => ⟨tr ++ [.error], s, ws⟩
        else
          let len := if c.commandCode = 250 then unknownSbLen cdata else 3
          parseLoop data fuel (i + len) (i + len) bufs true s
            (tr ++ [.command { c with dataLen := len }]) ws
      else
        if byteAt data i = 255 ∧ data.length < i + 3 then
          ⟨tr ++ (if l < i then [.data (slice data l i)] else []),
           { s with last := some (data.drop i, 0, 0) }, ws⟩
        else
          if needsPush ∨ i = data.length - 1 then
            parseLoop data fuel (i + 1) l (bufs ++ [slice data l (i + 1)]) false s tr ws
          else
            parseLoop data fuel (i + 1) l bufs needsPush s tr ws
    else
      ⟨tr ++ (if bufs.isEmpty then [] else [.data bufs.flatten]), s, ws⟩

/-- Client.prototype.parse: prepend the saved residue if any, then scan. -/
def parseClient (s : Session) (chunk : Bytes) : PRes :=
  match s.last with
  | some (old, i, l) =>
    let data := old ++ chunk
    parseLoop data (data.length + 1) i l [] false { s with last := none } [] []
  | none => parseLoop chunk (chunk.length + 1) 0 0 [] false s [] []

/-- Feed a sequence of chunks through parse, concatenating the traces and
writes. -/
def runChunks : Session → List Bytes → PRes
  | s, [] => ⟨[], s, []⟩
  | s, chunk :: rest =>
    let r := parseClient s chunk
    let r2 := runChunks r.sess rest
    ⟨r.tr ++ r2.tr, r2.sess, r.ws ++ r2.ws⟩

/-- Client.prototype._setRawMode: set isRaw, then (only when the transport
is writable) write DO SUPPRESS_GO_AHEAD, WILL SUPPRESS_GO_AHEAD, WILL ECHO
when enabling, or the DONT/WONT forms when disabling. -/
def setRawMode (s : Session) (mode : Bool) : Session × List Bytes :=
  let s2 : Session := { s with isRaw := mode }
  if s2.writable = false then (s2, [])
  else if mode then (s2, [[255, 253, 3], [255, 251, 3], [255, 251, 1]])
  else (s2, [[255, 254, 3], [255, 252, 3], [255, 252, 1]])

/-- An item of the canonical observation sequence: user-data events are
flattened to their individual bytes, every other event kept as is. -/
inductive Item where
  | byte (b : Nat)
  | ev (e : Ev)
  deriving Repr, DecidableEq

/-- Canonical form of a trace: the sequence of user-data bytes and option
events, forgetting how user data was grouped into data events. -/
def canon : List Ev → List Item
  | [] => []
  | Ev.data bs :: rest => bs.map Item.byte ++ canon rest
  | e :: rest => Item.ev e :: canon rest

/-- No entry of an environment list has an empty name. -/
def envListOk (e : List (Bytes × Bytes)) : Prop := ∀ p ∈ e, p.1 ≠ ([] : Bytes)

/-- The environment map of a session contains no empty-named entry. -/
def envOk (s : Session) : Prop := envListOk s.env

/-- Session states reachable from a fresh Client by feeding inbound chunks
and toggling raw mode. -/
inductive Reachable : Session → Prop where
  | init (tty writable : Bool) : Reachable (mkSession tty writable)
  | parse {s : Session} (chunk : Bytes) : Reachable s → Reachable (parseClient s chunk).sess
  | raw {s : Session} (mode : Bool) : Reachable s → Reachable (setRawMode s mode).1

theorem envListOk_envSet {e : List (Bytes × Bytes)} {n v : Bytes} (hn : n ≠ [])
    (he : envListOk e) : envListOk (envSet e n v) := by
  intro p hp
  cases hp with
  | head => exact hn
  | tail _ hp => exact he p (List.mem_of_mem_filter hp)

theorem fixed3_sess_eq {nm : String} {s : Session} {cdata : Bytes} {c : Cmd}
    {len : Nat} {tr : List Ev} {s2 : Session} {ws : List Bytes} {c2 : Cmd}
    (h : fixed3 nm s cdata c = HRes.ok len tr s2 ws c2) : s2 = s := by
  unfold fixed3 at h
  split at h
  · exact HRes.noConfusion h
  · injection h with h1 h2 h3 h4 h5
    exact h3.symm

theorem naws_env_eq {s : Session} {cdata : Bytes} {c : Cmd}
    {len : Nat} {tr : List Ev} {s2 : Session} {ws : List Bytes} {c2 : Cmd}
    (h : naws s cdata c = HRes.ok len tr s2 ws c2) : s2.env = s.env := by
  unfold naws at h
  split at h
  · split at h
    · exact HRes.noConfusion h
    · dsimp only at h
      split at h
      · injection h with h1 h2 h3 h4 h5
        subst h3
        split
        · rfl
        · rfl
      · exact HRes.noConfusion h
  · split at h
    · exact HRes.noConfusion h
    · injection h with h1 h2 h3 h4 h5
      subst h3
      rfl

theorem terminal_type_env_eq {s : Session} {cdata : Bytes} {c : Cmd}
    {len : Nat} {tr : List Ev} {s2 : Session} {ws : List Bytes} {c2 : Cmd}
    (h : terminal_type s cdata c = HRes.ok len tr s2 ws c2) : s2.env = s.env := by
  unfold terminal_type at h
  split at h
  · split at h
    · exact HRes.noConfusion h
    · split at h
      · exact HRes.noConfusion h
      · split at h
        · exact HRes.noConfusion h
        · dsimp only at h
          split at h
          · injection h with h1 h2 h3 h4 h5
            subst h3
            rfl
          · exact HRes.noConfusion h
  · split at h
    · exact HRes.noConfusion h
    · injection h with h1 h2 h3 h4 h5
      subst h3
      rfl

theorem new_environ_envOk {s : Session} {cdata : Bytes} {c : Cmd}
    {len : Nat} {tr : List Ev} {s2 : Session} {ws : List Bytes} {c2 : Cmd}
    (h : new_environ s cdata c = HRes.ok len tr s2 ws c2)
    (he : envListOk s.env) : envListOk s2.env := by
  unfold new_environ at h
  split at h
  · split at h
    · exact HRes.noConfusion h
    · split at h
      · exact HRes.noConfusion h
      · split at h
        · exact HRes.noConfusion h
        · split at h
          · exact HRes.noConfusion h
          · dsimp only at h
            split at h
            case isTrue hg =>
              obtain ⟨-, -, -, -, -, hn, -⟩ := hg
              injection h with h1 h2 h3 h4 h5
              subst h3
              exact envListOk_envSet hn he
            case isFalse hg => exact HRes.noConfusion h
  · split at h
    · exact HRes.noConfusion h
    · injection h with h1 h2 h3 h4 h5
      subst h3
      exact he

theorem fixed3_envOk {nm : String} {s : Session} {cdata : Bytes} {c : Cmd}
    {len : Nat} {tr : List Ev} {s2 : Session} {ws : List Bytes} {c2 : Cmd}
    (h : fixed3 nm s cdata c = HRes.ok len tr s2 ws c2)
    (he : envListOk s.env) : envListOk s2.env := by
  rw [fixed3_sess_eq h]; exact he

theorem naws_envOk {s : Session} {cdata : Bytes} {c : Cmd}
    {len : Nat} {tr : List Ev} {s2 : Session} {ws : List Bytes} {c2 : Cmd}
    (h : naws s cdata c = HRes.ok len tr s2 ws c2)
    (he : envListOk s.env) : envListOk s2.env := by
  show envListOk s2.env
  rw [show s2.env = s.env from naws_env_eq h]
  exact he

theorem terminal_type_envOk {s : Session} {cdata : Bytes} {c : Cmd}
    {len : Nat} {tr : List Ev} {s2 : Session} {ws : List Bytes} {c2 : Cmd}
    (h : terminal_type s cdata c = HRes.ok len tr s2 ws c2)
    (he : envListOk s.env) : envListOk s2.env := by
  show envListOk s2.env
  rw [show s2.env = s.env from terminal_type_env_eq h]
  exact he

set_option maxHeartbeats 1000000 in
theorem runHandler_envOk {s : Session} {opt : Nat} {cdata : Bytes} {c : Cmd}
    {len : Nat} {tr : List Ev} {s2 : Session} {ws : List Bytes} {c2 : Cmd}
    (h : runHandler s opt cdata c = HRes.ok len tr s2 ws c2)
    (he : envListOk s.env) : envListOk s2.env := by
  unfold runHandler at h
  split at h
  · exact fixed3_envOk h he
  · split at h
    · exact fixed3_envOk h he
    · split at h
      · exact fixed3_envOk h he
      · split at h
        · exact fixed3_envOk h he
        · split at h
          · exact terminal_type_envOk h he
          · split at h
            · exact naws_envOk h he
            · split at h
              · exact fixed3_envOk h he
              · split at h
                · exact fixed3_envOk h he
                · split at h
                  · exact fixed3_envOk h he
                  · split at h
                    · exact fixed3_envOk h he
                    · split at h
                      · exact new_environ_envOk h he
                      · exact HRes.noConfusion h

theorem parseLoop_envOk (data : Bytes) :
    ∀ (fuel i l : Nat) (bufs : List Bytes) (np : Bool) (s : Session)
      (tr : List Ev) (ws : List Bytes),
      envListOk s.env → envListOk (parseLoop data fuel i l bufs np s tr ws).sess.env := by
  intro fuel
  induction fuel with
  | zero =>
    intro i l bufs np s tr ws he
    exact he
  | succ n ih =>
    intro i l bufs np s tr ws he
    rw [parseLoop]
    split
    · split
      · dsimp only
        split
        · split
          next len htr s2 hws c2 heq =>
            exact ih _ _ _ _ _ _ _ (runHandler_envOk heq he)
          next heq => exact he
          next heq => exact he
        · exact ih _ _ _ _ _ _ _ he
      · split
        · exact he
        · split
          · exact ih _ _ _ _ _ _ _ he
          · exact ih _ _ _ _ _ _ _ he
    · exact he

theorem parseClient_envOk (s : Session) (chunk : Bytes) (he : envListOk s.env) :
    envListOk (parseClient s chunk).sess.env := by
  unfold parseClient
  split
  · exact parseLoop_envOk _ _ _ _ _ _ _ _ _ he
  · exact parseLoop_envOk _ _ _ _ _ _ _ _ _ he

theorem setRawMode_env_eq (s : Session) (m : Bool) : (setRawMode s m).1.env = s.env := by
  unfold setRawMode
  dsimp only
  split
  · rfl
  · split <;> rfl

/-- Claim C1, counterexample: chunking invariance fails.  The stream
41 FF FB 01 delivered as a single chunk produces only the echo frame events
(the scanner never flushes the user-data span that precedes a recognised
frame, so the byte 0x41 is lost), while the same stream delivered as the
chunks 41 and FF FB 01 also emits the user byte 0x41. -/
theorem c1_chunking_dependence :
    canon (runChunks (mkSession false true) [[65, 255, 251, 1]]).tr ≠
    canon (runChunks (mkSession false true) [[65], [255, 251, 1]]).tr := by decide

/-- Claim C2, counterexample: user-data bytes are both duplicated and lost.
For the single chunk FF FB 01 41 42 the pass emits 41 41 42 (the first byte
after a frame is pushed once by needsPush and again, from the stale
low-water mark l, by the final push), and for 41 FF FB 01 the pre-frame
byte 41 is never emitted at all. -/
theorem c2_byte_loss_and_duplication :
    (parseClient (mkSession false true) [255, 251, 1, 65, 66]).tr =
      [.named "echo" ⟨251, 1, 3, none, none, none, none, none⟩,
       .command ⟨251, 1, 3, none, none, none, none, none⟩,
       .data [65, 65, 66]] ∧
    (parseClient (mkSession false true) [65, 255, 251, 1]).tr =
      [.named "echo" ⟨251, 1, 3, none, none, none, none, none⟩,
       .command ⟨251, 1, 3, none, none, none, none, none⟩] :=
  ⟨rfl, rfl⟩

/-- Claim C3, counterexample: IAC IAC is not collapsed to a single 0xFF.
When the byte after the pair is not a registered option code both 255 bytes
pass through as user data (the application observes two 0xFF), and when it
is one (here 31 = NAWS) the pair is misread as a frame with command
code 255, emitting that option's events and no user data at all. -/
theorem c3_iac_iac_not_collapsed :
    (parseClient (mkSession false true) [255, 255, 65, 66]).tr =
      [.data [255, 255, 65, 66]] ∧
    (parseClient (mkSession false true) [255, 255, 31]).tr =
      [.named "window size" ⟨255, 31, 3, none, none, none, none, none⟩,
       .named "naws" ⟨255, 31, 3, none, none, none, none, none⟩,
       .command ⟨255, 31, 3, none, none, none, none, none⟩] :=
  ⟨rfl, rfl⟩

/-- Claim C4, counterexample: a valid NAWS subnegotiation on a session
created without the tty option emits the window-size events with
width 80 and height 24 but leaves Session.columns and Session.rows
untouched (they are only set when options.tty holds). -/
theorem c4_counterexample :
    (parseClient (mkSession false true) [255, 250, 31, 0, 80, 0, 24, 255, 240]).sess.columns
      ≠ some 80 ∧
    (parseClient (mkSession false true) [255, 250, 31, 0, 80, 0, 24, 255, 240]).sess.rows
      ≠ some 24 ∧
    (parseClient (mkSession false true) [255, 250, 31, 0, 80, 0, 24, 255, 240]).tr =
      [.named "window size" ⟨250, 31, 9, some 80, some 24, none, none, none⟩,
       .named "naws" ⟨250, 31, 9, some 80, some 24, none, none, none⟩,
       .size 80 24,
       .command ⟨250, 31, 9, some 80, some 24, none, none, none⟩] := by
  exact ⟨by decide, by decide, rfl⟩

/-- Claim C4 (amended): for every well-formed NAWS subnegotiation
IAC SB 31 w_hi w_lo h_hi h_lo IAC SE processed by a session created with
the tty option, the decoder reads width and height as 16-bit big-endian
unsigned integers, emits resize, the window-size events carrying them, the
size event, and the command event, and afterwards Session.columns = width
and Session.rows = height. -/
theorem c4_amended_naws_tty (whi wlo hhi hlo : Nat) :
    parseClient (mkSession true true) [255, 250, 31, whi, wlo, hhi, hlo, 255, 240] =
      ⟨[.resize,
        .named "window size"
          ⟨250, 31, 9, some (256 * whi + wlo), some (256 * hhi + hlo), none, none, none⟩,
        .named "naws"
          ⟨250, 31, 9, some (256 * whi + wlo), some (256 * hhi + hlo), none, none, none⟩,
        .size (256 * whi + wlo) (256 * hhi + hlo),
        .command
          ⟨250, 31, 9, some (256 * whi + wlo), some (256 * hhi + hlo), none, none, none⟩],
       { mkSession true true with
           columns := some (256 * whi + wlo), rows := some (256 * hhi + hlo) },
       []⟩ := rfl

/-- Claim C5, counterexample: for the 3-byte frame IAC DO 50, whose option
code 50 lies outside section 4.1's recognised set (and outside the
implementation's option-name table), no Unknown event is emitted at all:
the recognition rule rejects the frame head and all three bytes pass
through as user data. -/
theorem c5_counterexample :
    (parseClient (mkSession false true) [255, 253, 50]).tr = [.data [255, 253, 50]] ∧
    ∀ c : Cmd, Ev.command c ∉ (parseClient (mkSession false true) [255, 253, 50]).tr := by
  refine ⟨rfl, ?_⟩
  intro c hc
  rw [show (parseClient (mkSession false true) [255, 253, 50]).tr
        = [.data [255, 253, 50]] from rfl] at hc
  simp at hc

/-- Claim C5 (amended): for every 3-byte negotiation frame
IAC (DO or DONT or WILL or WONT) opt where opt is in the implementation's
option registry (codes 0..49, 138, 139, 140, 255) but has no dedicated
handler, the session emits the generic command (Unknown) event carrying the
command and option codes, emits no error, consumes exactly the 3 frame
bytes and continues parsing (a following user byte is still delivered);
an option code outside the registry is not recognised as a frame at all
and its bytes pass through as user data. -/
theorem c5_amended_unknown_option (cc opt : Nat)
    (hc : cc = 251 ∨ cc = 252 ∨ cc = 253 ∨ cc = 254)
    (ho : isOptionCode opt) (hh : ¬ isHandledOption opt) :
    parseClient (mkSession false true) [255, cc, opt, 66] =
      ⟨[.command ⟨cc, opt, 3, none, none, none, none, none⟩, .data [66]],
       mkSession false true, []⟩ := by
  have ho2 : opt ≤ 49 ∨ opt = 138 ∨ opt = 139 ∨ opt = 140 ∨ opt = 255 := ho
  obtain rfl | rfl | rfl | rfl := hc <;>
    rcases ho2 with hle | rfl | rfl | rfl | rfl <;>
      first
        | rfl
        | (interval_cases opt <;>
            first
              | rfl
              | exact absurd (by decide) hh)

/-- Witness for the amended C5 at command DO and option 42 (CHARSET, in the
registry but unhandled). -/
theorem c5_witness :
    isOptionCode 42 ∧ ¬ isHandledOption 42 ∧
    parseClient (mkSession false true) [255, 253, 42, 66] =
      ⟨[.command ⟨253, 42, 3, none, none, none, none, none⟩, .data [66]],
       mkSession false true, []⟩ :=
  ⟨by decide, by decide,
   c5_amended_unknown_option 253 42 (Or.inr (Or.inr (Or.inl rfl))) (by decide) (by decide)⟩

/-- Claim C6: a structurally malformed subnegotiation of a recognised
option (a 9-byte NAWS SB frame whose trailing two bytes 65 65 are not
IAC SE, or a NEW-ENVIRON frame with an empty name) makes the session emit
exactly one error event and stop the pass, whatever data follows in the
chunk: no data or command events are emitted, nothing is written, and the
session state (hence the transport) is untouched.  A mere length shortage
(NAWS SB cut at 5 bytes, NEW-ENVIRON cut at 9 bytes) produces no event at
all, only the saved resume state. -/
theorem c6_malformed_sb_error :
    (∀ rest : Bytes,
      parseClient (mkSession true true) ([255, 250, 31, 0, 80, 0, 24, 65, 65] ++ rest) =
        ⟨[.error], mkSession true true, []⟩) ∧
    parseClient (mkSession true true) [255, 250, 39, 2, 3, 1, 66, 66, 255, 240] =
      ⟨[.error], mkSession true true, []⟩ ∧
    parseClient (mkSession true true) [255, 250, 31, 0, 80] =
      ⟨[], { mkSession true true with last := some ([255, 250, 31, 0, 80], 0, 0) }, []⟩ ∧
    parseClient (mkSession true true) [255, 250, 39, 2, 3, 65, 1, 66, 255] =
      ⟨[], { mkSession true true with
               last := some ([255, 250, 39, 2, 3, 65, 1, 66, 255], 0, 0) }, []⟩ :=
  ⟨fun _ => rfl, rfl, rfl, rfl⟩

/-- Claim C7: whenever the peer sends IAC WILL 24 (terminal type), the core
emits the terminal type event for that frame and writes exactly the six
bytes IAC SB 24 SEND IAC SE (FF FA 18 01 FF F0) to the transport. -/
theorem c7_terminal_type_will (s : Session) (hl : s.last = none) :
    parseClient s [255, 251, 24] =
      ⟨[.named "terminal type" ⟨251, 24, 3, none, none, none, none, none⟩,
        .command ⟨251, 24, 3, none, none, none, none, none⟩],
       s, [[255, 250, 24, 1, 255, 240]]⟩ := by
  unfold parseClient
  rw [hl]
  rfl

/-- Witness for C7 on a fresh session. -/
theorem c7_witness :
    (mkSession false true).last = none ∧
    parseClient (mkSession false true) [255, 251, 24] =
      ⟨[.named "terminal type" ⟨251, 24, 3, none, none, none, none, none⟩,
        .command ⟨251, 24, 3, none, none, none, none, none⟩],
       mkSession false true, [[255, 250, 24, 1, 255, 240]]⟩ :=
  ⟨rfl, c7_terminal_type_will (mkSession false true) rfl⟩

/-- Claim C8, counterexample: setRawMode(true) on a writable session writes
DO SUPPRESS_GO_AHEAD, WILL SUPPRESS_GO_AHEAD, WILL ECHO, not the claimed
sequence WILL ECHO, WILL SUPPRESS_GO_AHEAD, DO SUPPRESS_GO_AHEAD; and on a
non-writable session it is not a complete no-op: isRaw is still set. -/
theorem c8_counterexample :
    (setRawMode (mkSession true true) true).2 ≠
      [[255, 251, 1], [255, 251, 3], [255, 253, 3]] ∧
    (setRawMode (mkSession true false) true).1.isRaw = true := by decide

/-- Claim C8 (amended): setRawMode(true) always sets Session.isRaw to true;
when the transport is writable it writes exactly the three 3-byte commands
DO SUPPRESS_GO_AHEAD, WILL SUPPRESS_GO_AHEAD, WILL ECHO in that sequence,
and when it is not writable it writes nothing. -/
theorem c8_amended_setRawMode (s : Session) :
    setRawMode s true =
      ({ s with isRaw := true },
       if s.writable then [[255, 253, 3], [255, 251, 3], [255, 251, 1]] else []) := by
  unfold setRawMode
  dsimp only
  cases hw : s.writable <;> simp [hw]

/-- Claim C9: in every reachable session state the environment map contains
no entry whose name is the empty string: the NEW-ENVIRON decoder asserts a
nonempty name before the store, so no parse operation ever inserts an
empty-named entry. -/
theorem c9_env_never_empty_name {s : Session} (h : Reachable s) : envOk s := by
  induction h with
  | init tty writable =>
    intro p hp
    simp [mkSession] at hp
  | parse chunk _ ih => exact parseClient_envOk _ _ ih
  | raw mode _ ih =>
    simp only [envOk] at ih ⊢
    rw [setRawMode_env_eq]
    exact ih

/-- Witness for C9 at a concrete reachable state. -/
theorem c9_witness : Reachable (mkSession true true) ∧ envOk (mkSession true true) :=
  ⟨Reachable.init true true, c9_env_never_empty_name (Reachable.init true true)⟩

/-- Claim C10: every slice handed to a decoder by the recognition rule has
at least 3 bytes, so the length-below-3 needMore branch of each fixed
3-byte decoder (the nine fixed3 decoders, remote_flow_control included)
is unreachable from parse, and every recognised non-SB frame of a handled
option consumes exactly 3 bytes. -/
theorem c10_no_underflow :
    (∀ (data : Bytes) (i : Nat), frameHead data i → 3 ≤ (data.drop i).length) ∧
    (∀ (nm : String) (s : Session) (cdata : Bytes) (c : Cmd),
      3 ≤ cdata.length → (fixed3 nm s cdata c).len? = some 3) ∧
    (∀ (s : Session) (cdata : Bytes) (c : Cmd),
      3 ≤ cdata.length → (remote_flow_control s cdata c).len? = some 3) ∧
    (∀ (s : Session) (opt : Nat) (cdata : Bytes) (c : Cmd),
      isHandledOption opt → c.commandCode ≠ 250 → 3 ≤ cdata.length →
      (runHandler s opt cdata c).len? = some 3) := by
  refine ⟨?_, ?_, ?_, ?_⟩
  · intro data i h
    obtain ⟨h1, -, -, -⟩ := h
    rw [List.length_drop]
    omega
  · intro nm s cdata c h3
    unfold fixed3
    rw [if_neg (Nat.not_lt.mpr h3)]
    rfl
  · intro s cdata c h3
    unfold remote_flow_control fixed3
    rw [if_neg (Nat.not_lt.mpr h3)]
    rfl
  · intro s opt cdata c hopt hcc h3
    have hnl := Nat.not_lt.mpr h3
    rcases hopt with rfl | rfl | rfl | rfl | rfl | rfl | rfl | rfl | rfl | rfl | rfl <;>
      simp [runHandler, transmit_binary, echo, suppress_go_ahead, status, terminal_type,
            naws, terminal_speed, linemode, x_display_location, authentication, new_environ,
            fixed3, hnl, hcc, HRes.len?]

/-- Witness for C10 at concrete frames. -/
theorem c10_witness :
    3 ≤ ((([255, 251, 1] : Bytes)).drop 0).length ∧
    (fixed3 "echo" (mkSession false true) [255, 251, 1]
      ⟨251, 1, 3, none, none, none, none, none⟩).len? = some 3 ∧
    (remote_flow_control (mkSession false true) [255, 251, 33]
      ⟨251, 33, 3, none, none, none, none, none⟩).len? = some 3 ∧
    (runHandler (mkSession false true) 31 [255, 253, 31]
      ⟨253, 31, 3, none, none, none, none, none⟩).len? = some 3 :=
  ⟨c10_no_underflow.1 [255, 251, 1] 0 (by decide),
   c10_no_underflow.2.1 "echo" (mkSession false true) [255, 251, 1]
     ⟨251, 1, 3, none, none, none, none, none⟩ (by decide),
   c10_no_underflow.2.2.1 (mkSession false true) [255, 251, 33]
     ⟨251, 33, 3, none, none, none, none, none⟩ (by decide),
   c10_no_underflow.2.2.2 (mkSession false true) 31 [255, 253, 31]
     ⟨253, 31, 3, none, none, none, none, none⟩ (by decide) (by decide) (by decide)⟩

end Telnet
